import Mathlib

/-!
Shallow embedding of the christmas-tree repository: the polaroid photo
subsystem (`src/components/Polaroids.tsx`), the texture-load fallback, the
music toggle (`src/components/MusicPlayer.tsx`), the file-upload handler
(`src/components/UIOverlay.tsx`), the trunk morph driver and its vertex
shader easing (`TreeTrunk`), and the hand-tracking camera frame callback
(`Experience`).  Floating-point arithmetic is modelled by exact rationals;
the transcendental library functions (Math.sin, Math.cos, Math.hypot,
Math.cbrt, Math.PI) are passed as abstract parameters, constrained only by
the hypotheses each theorem needs (e.g. a sine/cosine pair squares to one).
Math.random() draws are passed explicitly as rationals in [0, 1).
-/

namespace ChristmasTree

/-- Modelled from the spec and the usages in `src`: the `TreeMode` enum from
`../types` (not included under `src/`) has the three display modes
CHAOS / FORMED / PINCH.  The code compares `mode === TreeMode.FORMED` and
`mode === TreeMode.PINCH`; everything else is treated as the chaos layout. -/
inductive TreeMode where
  | CHAOS
  | FORMED
  | PINCH
deriving DecidableEq, Repr

/-- Exact-rational 3D vector standing for a THREE.Vector3. -/
structure Vec3 where
  x : ℚ
  y : ℚ
  z : ℚ
deriving DecidableEq, Repr

/-- The `PhotoData` record built by `Polaroids` (Polaroids.tsx, interface
PhotoData). -/
structure PhotoData where
  id : Nat
  url : String
  chaosPos : Vec3
  targetPos : Vec3
  pinchPos : Vec3
  speed : ℚ
  isSelected : Bool
  label : String
deriving DecidableEq, Repr

/-- Position-target selection of `PolaroidItem`'s `useFrame` callback
(Polaroids.tsx lines 82-91): the pinch position for the selected photo in
pinch mode, the tree target when formed, the chaos position otherwise. -/
def polaroidTargetPos (mode : TreeMode) (data : PhotoData) : Vec3 :=
  if mode = TreeMode.PINCH ∧ data.isSelected then data.pinchPos
  else if mode = TreeMode.FORMED then data.targetPos
  else data.chaosPos

/-- Texture-related state of one `PolaroidItem`: the `texture` and `error`
useState cells (a texture is an opaque handle). -/
structure ItemTexState where
  texture : Option Nat
  error : Bool
deriving DecidableEq, Repr

/-- Outcome of a `THREE.TextureLoader.load` call for one URL. -/
inductive LoadResult where
  | success (tex : Nat)
  | failure (msg : String)
deriving DecidableEq, Repr

/-- Result of running the load callbacks: the new item state plus the
console warning emitted, if any. -/
structure LoadOutcome where
  state : ItemTexState
  warned : Option String
deriving DecidableEq, Repr

/-- The `loader.load` success/error callbacks of `PolaroidItem`
(Polaroids.tsx lines 55-70): on success the texture is stored and `error`
cleared; on error a warning is logged and `error` is set. -/
def textureLoadEffect (url : String) (res : LoadResult) (s : ItemTexState) :
    LoadOutcome :=
  match res with
  | LoadResult.success tex =>
      { state := { texture := some tex, error := false }, warned := none }
  | LoadResult.failure _ =>
      { state := { s with error := true },
        warned := some ("Failed to load image: " ++ url) }

/-- Material of the photo-area mesh of a polaroid. -/
inductive PhotoMaterial where
  | textured (tex : Nat)
  | fallback (color : String)
deriving DecidableEq, Repr

/-- The photo-area material chosen by `PolaroidItem`'s JSX
(Polaroids.tsx lines 185-190): `texture && !error` gives the textured basic
material, otherwise the fallback standard material, red `#550000` on error
and grey `#cccccc` while loading. -/
def photoAreaMaterial (s : ItemTexState) : PhotoMaterial :=
  match s.texture, s.error with
  | some tex, false => PhotoMaterial.textured tex
  | _, _ => PhotoMaterial.fallback (if s.error then "#550000" else "#cccccc")

/-- The polaroid text label (Polaroids.tsx line 207):
`error ? "Image not found" : photoLabel`. -/
def photoAreaLabel (s : ItemTexState) (photoLabel : String) : String :=
  if s.error then "Image not found" else photoLabel

/-- Outcome of the `audio.play()` promise in `MusicPlayer`. -/
inductive PlayOutcome where
  | success
  | failure (err : String)
deriving DecidableEq, Repr

/-- Observable result of one `toggleMusic` click. -/
structure ToggleResult where
  isPlaying : Bool
  pausedAudio : Bool
  loggedError : Option String
deriving DecidableEq, Repr

/-- The `toggleMusic` handler (MusicPlayer.tsx lines 26-38): no-op without
an audio element; pause when playing; otherwise play, logging an error via
the `.catch` branch when the play promise rejects; `isPlaying` is toggled
in either branch. -/
def toggleMusic (audioPresent : Bool) (isPlaying : Bool)
    (playOutcome : PlayOutcome) : ToggleResult :=
  if audioPresent = false then
    { isPlaying := isPlaying, pausedAudio := false, loggedError := none }
  else if isPlaying then
    { isPlaying := !isPlaying, pausedAudio := true, loggedError := none }
  else
    match playOutcome with
    | PlayOutcome.success =>
        { isPlaying := !isPlaying, pausedAudio := false, loggedError := none }
    | PlayOutcome.failure err =>
        { isPlaying := !isPlaying, pausedAudio := false,
          loggedError := some ("Failed to play music: " ++ err) }

/-- One file of a change event: its MIME type and the data URL its
FileReader would produce. -/
structure UploadFile where
  type : String
  dataUrl : String
deriving DecidableEq, Repr

/-- JavaScript `String.prototype.startsWith`, as a character-list
comparison. -/
def strStartsWith (s p : String) : Bool := p.data.isPrefixOf s.data

/-- The reader-collecting loop of `handleFileChange` (UIOverlay.tsx lines
43-58): files whose MIME type does not start with `image/` are skipped,
every other file contributes its data URL, in order. -/
def collectImageDataUrls : List UploadFile → List String
  | [] => []
  | f :: rest =>
      if strStartsWith f.type "image/" then
        f.dataUrl :: collectImageDataUrls rest
      else collectImageDataUrls rest

/-- The `handleFileChange` handler (UIOverlay.tsx lines 36-63): `none` when
the event carries no file list or an empty one (no callback), otherwise
`some urls`: the single `onPhotosUpload(urls)` call made after
`Promise.all` resolves. -/
def handleFileChange (files : Option (List UploadFile)) :
    Option (List String) :=
  match files with
  | none => none
  | some fs => if fs.length = 0 then none else some (collectImageDataUrls fs)

/-- How many polaroid frames to generate (Polaroids.tsx line 25); the
`photoData` loop below never reads it. -/
def PHOTO_COUNT : Nat := 22

/-- Abstract stand-ins for Math.cos, Math.sin and Math.PI used by the
`photoData` position formulas. -/
structure MathFns where
  cos : ℚ → ℚ
  sin : ℚ → ℚ
  pi : ℚ

/-- The three Math.random() draws consumed per photo in the `photoData`
loop: `distance`, `heightSpread` and `speed`. -/
structure PhotoRandom where
  distanceDraw : ℚ
  heightDraw : ℚ
  speedDraw : ℚ

/-- The label picked for photo `i` (Polaroids.tsx line 298):
`photoLabels && photoLabels[i] ? photoLabels[i] : "Happy Memories"`.
An absent array, an out-of-range index and an empty string (falsy in JS)
all fall back to the default. -/
def photoLabelAt (photoLabels : Option (List String)) (i : Nat) : String :=
  match photoLabels with
  | none => "Happy Memories"
  | some ls =>
      match ls[i]? with
      | some l => if l = "" then "Happy Memories" else l
      | none => "Happy Memories"

/-- One iteration of the `photoData` loop (Polaroids.tsx lines 251-300),
building the record for photo `i` out of `count` photos. -/
def photoDataItem (M : MathFns) (count : Nat) (uploadedPhotos : List String)
    (photoLabels : Option (List String)) (selectedPhotoIndex : Option Nat)
    (rnd : Nat → PhotoRandom) (i : Nat) : PhotoData :=
  let height : ℚ := 9
  let maxRadius : ℚ := 5
  let yNorm : ℚ := 1/5 + ((i : ℚ) / (count : ℚ)) * (3/5)
  let y := yNorm * height
  let r := maxRadius * (1 - yNorm) + 4/5
  let theta : ℚ := (i : ℚ) * (239996/100000)
  let targetPos : Vec3 := ⟨r * M.cos theta, y, r * M.sin theta⟩
  let relativeY : ℚ := 5
  let relativeZ : ℚ := 20
  let angle : ℚ := ((i : ℚ) / (count : ℚ)) * M.pi * 2
  let distance : ℚ := 3 + (rnd i).distanceDraw * 4
  let heightSpread : ℚ := ((rnd i).heightDraw - 1/2) * 8
  let chaosPos : Vec3 :=
    ⟨distance * M.cos angle * (12/10),
     relativeY + heightSpread,
     relativeZ - 4 + distance * M.sin angle * (1/2)⟩
  { id := i,
    url := uploadedPhotos.getD i "",
    chaosPos := chaosPos,
    targetPos := targetPos,
    pinchPos := ⟨0, 8, 8⟩,
    speed := 8/10 + (rnd i).speedDraw * (15/10),
    isSelected := decide (selectedPhotoIndex = some i),
    label := photoLabelAt photoLabels i }

/-- The `photoData` useMemo of `Polaroids` (Polaroids.tsx lines 239-302):
the empty list when nothing is uploaded, otherwise one record per uploaded
photo, for `i = 0 .. uploadedPhotos.length - 1`. -/
def photoData (M : MathFns) (uploadedPhotos : List String)
    (photoLabels : Option (List String)) (selectedPhotoIndex : Option Nat)
    (rnd : Nat → PhotoRandom) : List PhotoData :=
  if uploadedPhotos.length = 0 then []
  else
    (List.range uploadedPhotos.length).map
      (photoDataItem M uploadedPhotos.length uploadedPhotos photoLabels
        selectedPhotoIndex rnd)

/-- The `photoDisplayMode` prop values. -/
inductive PhotoDisplayMode where
  | random
  | sequential
deriving DecidableEq, Repr

/-- The internal useState cells of `Polaroids` (Polaroids.tsx lines
215-216): the currently selected photo index (null when none) and the
counter for sequential display mode. -/
structure PolaroidsState where
  selectedPhotoIndex : Option Nat
  sequentialIndex : Nat
deriving DecidableEq, Repr

/-- Initial state of `Polaroids`: no selection, counter 0. -/
def initialPolaroidsState : PolaroidsState :=
  { selectedPhotoIndex := none, sequentialIndex := 0 }

/-- The props (and the Math.random() draw) visible to one run of the
selection useEffect of `Polaroids`. -/
structure SelectEffectInput where
  mode : TreeMode
  numPhotos : Nat
  photoDisplayMode : PhotoDisplayMode
  randomDraw : ℚ
deriving DecidableEq, Repr

/-- Math.floor of a non-negative rational, as a natural number. -/
def mathFloorNat (q : ℚ) : Nat := (Int.floor q).toNat

/-- One run of the selection useEffect (Polaroids.tsx lines 219-237): in
PINCH mode with photos present and no current selection, pick a random
index (`Math.floor(Math.random() * length)`) in random display mode, or
the sequential counter — advancing it by one modulo the photo count — in
sequential mode; in every other situation clear the selection. -/
def selectPhotoEffect (inp : SelectEffectInput) (s : PolaroidsState) :
    PolaroidsState :=
  if inp.mode = TreeMode.PINCH ∧ 0 < inp.numPhotos then
    match s.selectedPhotoIndex with
    | some _ => s
    | none =>
        match inp.photoDisplayMode with
        | PhotoDisplayMode.random =>
            let newIndex := mathFloorNat (inp.randomDraw * inp.numPhotos)
            { s with selectedPhotoIndex := some newIndex }
        | PhotoDisplayMode.sequential =>
            { selectedPhotoIndex := some s.sequentialIndex,
              sequentialIndex := (s.sequentialIndex + 1) % inp.numPhotos }
  else { s with selectedPhotoIndex := none }

/-- A sequence of effect runs, left to right. -/
def runSelect (inputs : List SelectEffectInput) (s : PolaroidsState) :
    PolaroidsState :=
  inputs.foldl (fun st inp => selectPhotoEffect inp st) s

/-- THREE.MathUtils.lerp: `(1 - t) * x + t * y` (no clamping of `t`). -/
def lerp (x y t : ℚ) : ℚ := (1 - t) * x + t * y

/-- Target of the trunk progress uniform (TreeTrunk useFrame):
`mode === TreeMode.FORMED ? 1 : 0`. -/
def trunkProgressTarget (mode : TreeMode) : ℚ :=
  if mode = TreeMode.FORMED then 1 else 0

/-- One frame of the trunk morph driver (TreeTrunk useFrame, part_000
lines 135-146): `progress = lerp(progress, target, delta * 3.5)`. -/
def trunkProgressStep (mode : TreeMode) (delta : ℚ) (p : ℚ) : ℚ :=
  lerp p (trunkProgressTarget mode) (delta * (7/2))

/-- The trunk progress value after a sequence of frames, each a
(mode, delta) pair. -/
def runTrunkProgress (frames : List (TreeMode × ℚ)) (p : ℚ) : ℚ :=
  frames.foldl (fun q f => trunkProgressStep f.1 f.2 q) p

/-- The `cubicInOut` easing of the trunk vertex shader (part_000 lines
23-27): `t < 0.5 ? 4t³ : 1 - (-2t + 2)³ / 2`, read over exact rationals. -/
def cubicInOut (t : ℚ) : ℚ :=
  if t < 1/2 then 4 * t * t * t
  else 1 - (-2 * t + 2)^3 / 2

/-- The per-particle randomness consumed by one iteration of the TreeTrunk
attribute loop (part_000 lines 100-121), with the transcendental calls
already applied: `cosTheta/sinTheta` stand for Math.cos(theta)/
Math.sin(theta) of `theta = random * 2π`, `cosPhi/sinPhi` for the
cosine/sine of `phi = acos(2 * random - 1)`, `cbrtU` for
`Math.cbrt(Math.random())`, and the remaining fields are raw
Math.random() draws. -/
structure TrunkDraw where
  cosTheta : ℚ
  sinTheta : ℚ
  cosPhi : ℚ
  sinPhi : ℚ
  cbrtU : ℚ
  heightDraw : ℚ
  cosAngle : ℚ
  sinAngle : ℚ
  radiusDraw : ℚ
  seedDraw : ℚ
deriving DecidableEq, Repr

/-- What it means for a draw to come from the library functions: each
cosine/sine pair lies on the unit circle and each Math.random()-derived
scalar lies in [0, 1) (Math.cbrt maps [0, 1) into [0, 1)). -/
def TrunkDraw.valid (d : TrunkDraw) : Prop :=
  d.cosTheta^2 + d.sinTheta^2 = 1 ∧
  d.cosPhi^2 + d.sinPhi^2 = 1 ∧
  0 ≤ d.cbrtU ∧ d.cbrtU < 1 ∧
  0 ≤ d.heightDraw ∧ d.heightDraw < 1 ∧
  d.cosAngle^2 + d.sinAngle^2 = 1 ∧
  0 ≤ d.radiusDraw ∧ d.radiusDraw < 1 ∧
  0 ≤ d.seedDraw ∧ d.seedDraw < 1

/-- The static attributes of one trunk particle. -/
structure TrunkParticle where
  chaos : Vec3
  target : Vec3
  rnd : ℚ
deriving DecidableEq, Repr

/-- One iteration of the TreeTrunk useMemo attribute loop (part_000 lines
100-121): chaos position on a random sphere of radius `25 * cbrt(u)`
around (0, 5, 0), target position in the trunk cylinder (radius 1, height
2, bottom at y = -2), and the raw random seed. -/
def trunkParticle (d : TrunkDraw) : TrunkParticle :=
  let trunkHeight : ℚ := 2
  let trunkRadius : ℚ := 1
  let trunkBottomY : ℚ := -2
  let r := 25 * d.cbrtU
  let chaos : Vec3 :=
    ⟨r * d.sinPhi * d.cosTheta, r * d.sinPhi * d.sinTheta + 5, r * d.cosPhi⟩
  let height := d.heightDraw * trunkHeight
  let radius := d.radiusDraw * trunkRadius
  let target : Vec3 :=
    ⟨d.cosAngle * radius, trunkBottomY + height, d.sinAngle * radius⟩
  { chaos := chaos, target := target, rnd := d.seedDraw }

/-- The `handPosition` prop of `Experience`. -/
structure HandPosition where
  x : ℚ
  y : ℚ
  detected : Bool
deriving DecidableEq, Repr

/-- The state touched by the Experience frame callback: the camera
position, the OrbitControls target, the spherical readings the controls
report (azimuthal angle, polar angle, distance), and the stored previous
hand position ref. -/
structure ExperienceState where
  cameraPos : Vec3
  controlsTarget : Vec3
  azimuthalAngle : ℚ
  polarAngle : ℚ
  distance : ℚ
  prevHandPos : ℚ × ℚ
deriving DecidableEq, Repr

/-- Abstract stand-ins for Math.sin, Math.cos, Math.hypot and Math.PI used
by the Experience frame callback. -/
structure ExpMath where
  sin : ℚ → ℚ
  cos : ℚ → ℚ
  hypot : ℚ → ℚ → ℚ
  pi : ℚ

/-- The movement threshold of the hand-tracking camera (part_001 line 25):
0.005. -/
def MOVEMENT_THRESHOLD : ℚ := 1/200

/-- The Experience useFrame callback (part_001 lines 28-93): with a
detected hand whose movement since the stored previous position exceeds
the threshold, rotate the camera toward the hand-derived spherical angles
and store the hand position; otherwise leave everything unchanged. -/
def experienceFrame (M : ExpMath) (handPosition : HandPosition) (delta : ℚ)
    (s : ExperienceState) : ExperienceState :=
  if handPosition.detected then
    let movement :=
      M.hypot (handPosition.x - s.prevHandPos.1) (handPosition.y - s.prevHandPos.2)
    if MOVEMENT_THRESHOLD < movement then
      let targetAzimuth := (handPosition.x - 1/2) * M.pi * 2
      let adjustedY := (handPosition.y - 1/5) * (3/2)
      let clampedY := max 0 (min 1 adjustedY)
      let minPolar := M.pi / 4
      let maxPolar := M.pi / (9/5)
      let targetPolar := minPolar + clampedY * (maxPolar - minPolar)
      let currentAzimuth := s.azimuthalAngle
      let currentPolar := s.polarAngle
      let azimuthDiff0 := targetAzimuth - currentAzimuth
      let azimuthDiff1 :=
        if M.pi < azimuthDiff0 then azimuthDiff0 - M.pi * 2 else azimuthDiff0
      let azimuthDiff :=
        if azimuthDiff1 < -M.pi then azimuthDiff1 + M.pi * 2 else azimuthDiff1
      let lerpSpeed : ℚ := 10
      let newAzimuth := currentAzimuth + azimuthDiff * delta * lerpSpeed
      let newPolar := currentPolar + (targetPolar - currentPolar) * delta * lerpSpeed
      let radius := s.distance
      let normalizedHandY := max 0 (min 1 handPosition.y)
      let targetY := 7 - normalizedHandY * 4
      let x := radius * M.sin newPolar * M.sin newAzimuth
      let y := targetY + radius * M.cos newPolar
      let z := radius * M.sin newPolar * M.cos newAzimuth
      { cameraPos := ⟨x, y, z⟩,
        controlsTarget := ⟨0, targetY, 0⟩,
        azimuthalAngle := newAzimuth,
        polarAngle := newPolar,
        distance := s.distance,
        prevHandPos := (handPosition.x, handPosition.y) }
    else s
  else s

/-! Helper lemmas. -/

/-- The reader loop collects exactly the data URLs of the image-typed
files, in order. -/
lemma collectImageDataUrls_eq (fs : List UploadFile) :
    collectImageDataUrls fs =
      (fs.filter (fun f => strStartsWith f.type "image/")).map
        (fun f => f.dataUrl) := by
  induction fs with
  | nil => rfl
  | cons f rest ih =>
      cases h : strStartsWith f.type "image/" <;>
        simp [collectImageDataUrls, List.filter_cons, h, ih]

/-- Math.floor of `q * n` is below `n` for a draw `q` in [0, 1). -/
lemma mathFloorNat_lt (q : ℚ) (n : ℕ) (h0 : 0 ≤ q) (h1 : q < 1)
    (hn : 0 < n) : mathFloorNat (q * n) < n := by
  have hnq : (0:ℚ) < n := by exact_mod_cast hn
  have hq : q * n < n := by nlinarith
  have hfl : Int.floor (q * (n:ℚ)) < (n : ℤ) := by
    rw [Int.floor_lt]
    exact_mod_cast hq
  have hge : (0:ℤ) ≤ Int.floor (q * (n:ℚ)) := by
    apply Int.le_floor.mpr
    push_cast
    positivity
  unfold mathFloorNat
  omega

/-- Counting the indices of `range n` equal to a fixed `j < n` gives
exactly one. -/
lemma countP_selected_range (n j : ℕ) (h : j < n) :
    (List.range n).countP (fun i => decide ((some j : Option ℕ) = some i)) = 1 := by
  induction n with
  | zero => omega
  | succ m ih =>
      rw [List.range_succ, List.countP_append]
      by_cases hj : j < m
      · rw [ih hj]
        have hz : (List.countP (fun i => decide ((some j : Option ℕ) = some i)) [m]) = 0 := by
          simp
          omega
        rw [hz]
      · have hjm : j = m := by omega
        subst hjm
        have h0 : (List.range j).countP
            (fun i => decide ((some j : Option ℕ) = some i)) = 0 := by
          rw [List.countP_eq_zero]
          intro a ha
          simp only [List.mem_range] at ha
          simp
          omega
        rw [h0]
        simp

/-- With a selected index within range, the generated photo list marks
exactly one item as selected. -/
lemma photoData_countP_selected (M : MathFns) (photos : List String)
    (labels : Option (List String)) (rnd : Nat → PhotoRandom) (j : ℕ)
    (h : j < photos.length) :
    (photoData M photos labels (some j) rnd).countP (fun d => d.isSelected) = 1 := by
  unfold photoData
  rw [if_neg (by omega)]
  rw [List.countP_map]
  have hfun : ((fun d => d.isSelected) ∘
      photoDataItem M photos.length photos labels (some j) rnd)
      = fun i => decide ((some j : Option ℕ) = some i) := by
    funext i
    rfl
  rw [hfun]
  exact countP_selected_range _ _ h

/-- One trunk progress step stays inside [0, 1] when the scaled delta does
not overshoot. -/
lemma trunkProgressStep_mem (mode : TreeMode) (delta p : ℚ)
    (hp0 : 0 ≤ p) (hp1 : p ≤ 1) (hd0 : 0 ≤ delta) (hd1 : delta ≤ 2/7) :
    0 ≤ trunkProgressStep mode delta p ∧ trunkProgressStep mode delta p ≤ 1 := by
  have ht0 : 0 ≤ delta * (7/2) := by positivity
  have ht1 : delta * (7/2) ≤ 1 := by nlinarith
  have hA : 0 ≤ (1 - delta * (7/2)) * p :=
    mul_nonneg (by linarith) hp0
  have hB : (1 - delta * (7/2)) * (1 - p) ≥ 0 :=
    mul_nonneg (by linarith) (by linarith)
  unfold trunkProgressStep trunkProgressTarget lerp
  by_cases h : mode = TreeMode.FORMED
  · rw [if_pos h]
    constructor <;> nlinarith
  · rw [if_neg h]
    constructor <;> nlinarith

/-- The trunk progress trace invariant: from inside [0, 1] it stays inside
[0, 1] across any frame sequence with per-frame delta in [0, 2/7]. -/
lemma runTrunkProgress_mem (frames : List (TreeMode × ℚ)) :
    ∀ p : ℚ, 0 ≤ p → p ≤ 1 →
      (∀ f ∈ frames, 0 ≤ f.2 ∧ f.2 ≤ 2/7) →
      0 ≤ runTrunkProgress frames p ∧ runTrunkProgress frames p ≤ 1 := by
  induction frames with
  | nil => intro p h0 h1 _; exact ⟨h0, h1⟩
  | cons f rest ih =>
      intro p h0 h1 hf
      have hd := hf f (List.mem_cons_self f rest)
      have hstep := trunkProgressStep_mem f.1 f.2 p h0 h1 hd.1 hd.2
      have hrw : runTrunkProgress (f :: rest) p =
          runTrunkProgress rest (trunkProgressStep f.1 f.2 p) := rfl
      rw [hrw]
      exact ih _ hstep.1 hstep.2 (fun g hg => hf g (List.mem_cons_of_mem _ hg))

/-! Claim theorems. -/

/-- C1 (counterexample): the claim says the texture-load failure is the
program's only error class, with no other operation holding an
error-handling branch; but `toggleMusic` (MusicPlayer.tsx lines 26-38)
handles a rejected `audio.play()` promise in its `.catch` branch, logging
an error — on the concrete input (audio present, not playing, play
rejects with "NotAllowedError") it logs, while the same operation with a
successful play logs nothing. -/
theorem c1_counterexample :
    (toggleMusic true false (PlayOutcome.failure "NotAllowedError")).loggedError =
      some "Failed to play music: NotAllowedError" ∧
    (toggleMusic true false PlayOutcome.success).loggedError = none := by
  exact ⟨by decide, by decide⟩

/-- C1 (amended): for every polaroid item, a texture-load failure logs a
warning naming the URL, sets the error flag, and degrades the item to the
placeholder visual — the fallback material `#550000` and the label
"Image not found"; besides this, the music player's rejected
`audio.play()` promise is the one other error-handling branch, logging an
error; no further error classes exist. -/
theorem c1_texture_fallback :
    (∀ (url msg : String) (s : ItemTexState),
      (textureLoadEffect url (LoadResult.failure msg) s).warned =
          some ("Failed to load image: " ++ url) ∧
        (textureLoadEffect url (LoadResult.failure msg) s).state.error = true ∧
        photoAreaMaterial (textureLoadEffect url (LoadResult.failure msg) s).state =
          PhotoMaterial.fallback "#550000" ∧
        ∀ lbl, photoAreaLabel (textureLoadEffect url (LoadResult.failure msg) s).state lbl =
          "Image not found") ∧
    (∀ err, (toggleMusic true false (PlayOutcome.failure err)).loggedError =
        some ("Failed to play music: " ++ err)) := by
  constructor
  · intro url msg s
    obtain ⟨tex, err⟩ := s
    cases tex <;> exact ⟨rfl, rfl, rfl, fun _ => rfl⟩
  · intro err
    rfl

/-- C8 (confirmed): the upload handler fires its callback at most once per
change event — never when the event carries no files, and otherwise
exactly once, with the data URLs of exactly the files whose MIME type
starts with `image/` (in particular an all-non-image selection still
yields one callback with the empty list). -/
theorem c8_upload_callback :
    handleFileChange none = none ∧
    handleFileChange (some []) = none ∧
    (∀ fs : List UploadFile, fs ≠ [] →
      handleFileChange (some fs) =
        some ((fs.filter (fun f => strStartsWith f.type "image/")).map
          (fun f => f.dataUrl))) ∧
    (∀ fs : List UploadFile, fs ≠ [] →
      (∀ f ∈ fs, strStartsWith f.type "image/" = false) →
      handleFileChange (some fs) = some []) := by
  refine ⟨rfl, rfl, ?_, ?_⟩
  · intro fs h
    have hred : handleFileChange (some fs) =
        if fs.length = 0 then none else some (collectImageDataUrls fs) := rfl
    rw [hred, if_neg (by simpa using h)]
    rw [collectImageDataUrls_eq]
  · intro fs h hall
    have hred : handleFileChange (some fs) =
        if fs.length = 0 then none else some (collectImageDataUrls fs) := rfl
    rw [hred, if_neg (by simpa using h)]
    rw [collectImageDataUrls_eq]
    have : fs.filter (fun f => strStartsWith f.type "image/") = [] := by
      rw [List.filter_eq_nil_iff]
      intro f hf
      simp [hall f hf]
    rw [this]
    rfl

/-- C8 (witness): a concrete change event with one image file and one text
file fires the callback once, with just the image's data URL. -/
theorem c8_witness :
    handleFileChange (some [⟨"image/png", "dataA"⟩, ⟨"text/plain", "dataB"⟩]) =
      some ["dataA"] :=
  (c8_upload_callback.2.2.1 [⟨"image/png", "dataA"⟩, ⟨"text/plain", "dataB"⟩]
    (by decide)).trans (by decide)

/-- C4 (counterexample): the trunk progress driver uses an unclamped lerp,
so a single frame with non-negative delta 1 (mode FORMED, progress
starting at 0) moves the progress to 3.5, outside [0, 1] — refuting the
claim that progress stays within [0, 1] for every non-negative frame
delta. -/
theorem c4_counterexample :
    (0 : ℚ) ≤ 1 ∧
    trunkProgressStep TreeMode.FORMED 1 0 = 7/2 ∧
    ¬ (trunkProgressStep TreeMode.FORMED 1 0 ≤ 1) := by
  refine ⟨by norm_num, ?_, ?_⟩ <;>
    norm_num [trunkProgressStep, trunkProgressTarget, lerp]

/-- C4 (amended): on every frame the trunk progress is lerped toward
target 1 exactly when the mode is FORMED and toward 0 otherwise, and,
starting from 0, it remains within [0, 1] for every frame sequence whose
deltas satisfy `0 ≤ delta` and `delta * 3.5 ≤ 1` (i.e. delta ≤ 2/7). -/
theorem c4_trunk_progress :
    (∀ delta p : ℚ,
      trunkProgressStep TreeMode.FORMED delta p = lerp p 1 (delta * (7/2))) ∧
    (∀ (mode : TreeMode) (delta p : ℚ), mode ≠ TreeMode.FORMED →
      trunkProgressStep mode delta p = lerp p 0 (delta * (7/2))) ∧
    (∀ frames : List (TreeMode × ℚ),
      (∀ f ∈ frames, 0 ≤ f.2 ∧ f.2 ≤ 2/7) →
      0 ≤ runTrunkProgress frames 0 ∧ runTrunkProgress frames 0 ≤ 1) := by
  refine ⟨fun delta p => ?_, fun mode delta p h => ?_, fun frames hf => ?_⟩
  · unfold trunkProgressStep trunkProgressTarget
    rw [if_pos rfl]
  · unfold trunkProgressStep trunkProgressTarget
    rw [if_neg h]
  · exact runTrunkProgress_mem frames 0 le_rfl (by norm_num) hf

/-- C4 (witness): a concrete two-frame trace with deltas 1/7 and 2/7 keeps
the progress inside [0, 1]. -/
theorem c4_witness :
    0 ≤ runTrunkProgress [(TreeMode.FORMED, 1/7), (TreeMode.CHAOS, 2/7)] 0 ∧
    runTrunkProgress [(TreeMode.FORMED, 1/7), (TreeMode.CHAOS, 2/7)] 0 ≤ 1 :=
  c4_trunk_progress.2.2 [(TreeMode.FORMED, 1/7), (TreeMode.CHAOS, 2/7)]
    (by
      intro f hf
      simp only [List.mem_cons, List.mem_singleton] at hf
      rcases hf with rfl | rfl | hf
      · norm_num
      · norm_num
      · simp at hf)

/-- C5 (confirmed): the shader's cubic ease-in-out, read over exact
rationals, satisfies cubicInOut 0 = 0, cubicInOut 1 = 1,
cubicInOut (1/2) = 1/2 with both piecewise branches agreeing at 1/2, and
is monotonically non-decreasing on [0, 1]. -/
theorem c5_cubicInOut_valid :
    cubicInOut 0 = 0 ∧ cubicInOut 1 = 1 ∧ cubicInOut (1/2) = 1/2 ∧
    4 * (1/2 : ℚ) * (1/2) * (1/2) = 1 - (-2 * (1/2 : ℚ) + 2)^3 / 2 ∧
    ∀ s t : ℚ, 0 ≤ s → s ≤ t → t ≤ 1 → cubicInOut s ≤ cubicInOut t := by
  refine ⟨by norm_num [cubicInOut], by norm_num [cubicInOut],
    by norm_num [cubicInOut], by norm_num, ?_⟩
  intro s t hs hst ht
  unfold cubicInOut
  by_cases h1 : s < 1/2 <;> by_cases h2 : t < 1/2
  · rw [if_pos h1, if_pos h2]
    have ht0 : 0 ≤ t := hs.trans hst
    nlinarith [mul_nonneg (sub_nonneg.mpr hst)
      (add_nonneg (add_nonneg (mul_nonneg ht0 ht0) (mul_nonneg hs ht0))
        (mul_nonneg hs hs))]
  · rw [if_pos h1, if_neg h2]
    push_neg at h2
    have a1 : 4 * s * s * s ≤ 1/2 := by
      nlinarith [mul_nonneg (by linarith : (0:ℚ) ≤ 1 - 2*s)
        (by nlinarith : (0:ℚ) ≤ 1 + 2*s + 4*s*s)]
    have a2 : 1/2 ≤ 1 - (-2 * t + 2)^3 / 2 := by
      nlinarith [mul_nonneg (by linarith : (0:ℚ) ≤ 2*t - 1)
        (by nlinarith : (0:ℚ) ≤ 1 + (-2*t+2) + (-2*t+2)^2)]
    linarith
  · exfalso
    push_neg at h1
    linarith
  · rw [if_neg h1, if_neg h2]
    push_neg at h1 h2
    have hb0 : (0:ℚ) ≤ -2*t + 2 := by linarith
    have ha0 : (0:ℚ) ≤ -2*s + 2 := by linarith
    nlinarith [mul_nonneg (by linarith : (0:ℚ) ≤ (-2*s+2) - (-2*t+2))
      (add_nonneg (add_nonneg (mul_nonneg ha0 ha0) (mul_nonneg ha0 hb0))
        (mul_nonneg hb0 hb0))]

/-- C5 (witness): monotonicity at the concrete pair 1/4 ≤ 3/4. -/
theorem c5_witness : cubicInOut (1/4) ≤ cubicInOut (3/4) :=
  c5_cubicInOut_valid.2.2.2.2 (1/4) (3/4) (by norm_num) (by norm_num)
    (by norm_num)

/-- C2 (counterexample): with sequential display mode, entering pinch
twice with 3 photos advances the counter to 2; after the photos are
replaced by a single photo, entering pinch selects index 2 — not in
[0, 1) — and the generated photo data for the one photo marks no item
selected, refuting "exactly one photo index in [0, number of photos) is
selected". -/
theorem c2_counterexample :
    (runSelect
      [⟨TreeMode.PINCH, 3, PhotoDisplayMode.sequential, 0⟩,
       ⟨TreeMode.CHAOS, 3, PhotoDisplayMode.sequential, 0⟩,
       ⟨TreeMode.PINCH, 3, PhotoDisplayMode.sequential, 0⟩,
       ⟨TreeMode.CHAOS, 3, PhotoDisplayMode.sequential, 0⟩,
       ⟨TreeMode.PINCH, 1, PhotoDisplayMode.sequential, 0⟩]
      initialPolaroidsState).selectedPhotoIndex = some 2 ∧
    ¬ (2 < 1) ∧
    (photoData ⟨fun _ => 0, fun _ => 0, 0⟩ ["a"] none (some 2)
      (fun _ => ⟨0, 0, 0⟩)).countP (fun d => d.isSelected) = 0 := by
  refine ⟨by decide, by omega, by decide⟩

/-- C2 (amended): when the mode becomes PINCH with at least one photo and
no current selection, a photo index is selected, and it lies in
[0, number of photos) whenever the display mode is random (for any
Math.random draw in [0, 1)) or the stored sequential counter is below the
photo count; with an in-range selected index exactly one generated photo
is marked selected; in pinch mode the selected photo's per-frame movement
target is the pinch position and every non-selected photo's target is its
chaos position; and the selection is cleared whenever the mode leaves
PINCH. -/
theorem c2_pinch_focus :
    (∀ (inp : SelectEffectInput) (s : PolaroidsState),
      inp.mode = TreeMode.PINCH → 0 < inp.numPhotos →
      s.selectedPhotoIndex = none →
      inp.photoDisplayMode = PhotoDisplayMode.random →
      0 ≤ inp.randomDraw → inp.randomDraw < 1 →
      ∃ j, (selectPhotoEffect inp s).selectedPhotoIndex = some j ∧
        j < inp.numPhotos) ∧
    (∀ (inp : SelectEffectInput) (s : PolaroidsState),
      inp.mode = TreeMode.PINCH → 0 < inp.numPhotos →
      s.selectedPhotoIndex = none →
      inp.photoDisplayMode = PhotoDisplayMode.sequential →
      s.sequentialIndex < inp.numPhotos →
      (selectPhotoEffect inp s).selectedPhotoIndex = some s.sequentialIndex ∧
        s.sequentialIndex < inp.numPhotos) ∧
    (∀ (M : MathFns) (photos : List String) (labels : Option (List String))
        (rnd : Nat → PhotoRandom) (j : ℕ), j < photos.length →
      (photoData M photos labels (some j) rnd).countP (fun d => d.isSelected) = 1) ∧
    (∀ d : PhotoData, d.isSelected = true →
      polaroidTargetPos TreeMode.PINCH d = d.pinchPos) ∧
    (∀ d : PhotoData, d.isSelected = false →
      polaroidTargetPos TreeMode.PINCH d = d.chaosPos) ∧
    (∀ (inp : SelectEffectInput) (s : PolaroidsState),
      inp.mode ≠ TreeMode.PINCH →
      (selectPhotoEffect inp s).selectedPhotoIndex = none) := by
  refine ⟨?_, ?_, ?_, ?_, ?_, ?_⟩
  · intro inp s hm hn hsel hdm h0 h1
    obtain ⟨mode, n, dm, q⟩ := inp
    obtain ⟨sel, seq⟩ := s
    simp only at hm hdm hsel h0 h1 hn
    subst hm hdm hsel
    refine ⟨mathFloorNat (q * n), ?_, mathFloorNat_lt q n h0 h1 hn⟩
    simp [selectPhotoEffect, hn]
  · intro inp s hm hn hsel hdm hseq
    obtain ⟨mode, n, dm, q⟩ := inp
    obtain ⟨sel, seq⟩ := s
    simp only at hm hdm hsel hseq hn
    subst hm hdm hsel
    exact ⟨by simp [selectPhotoEffect, hn], hseq⟩
  · intro M photos labels rnd j h
    exact photoData_countP_selected M photos labels rnd j h
  · intro d h
    unfold polaroidTargetPos
    rw [if_pos ⟨rfl, h⟩]
  · intro d h
    unfold polaroidTargetPos
    rw [if_neg (by simp [h]), if_neg (by decide)]
  · intro inp s h
    unfold selectPhotoEffect
    rw [if_neg (fun hc => h hc.1)]

/-- C2 (witness): entering pinch in random mode with 2 photos and draw 1/3
selects some index below 2. -/
theorem c2_witness :
    ∃ j, (selectPhotoEffect ⟨TreeMode.PINCH, 2, PhotoDisplayMode.random, 1/3⟩
      initialPolaroidsState).selectedPhotoIndex = some j ∧ j < 2 :=
  c2_pinch_focus.1 ⟨TreeMode.PINCH, 2, PhotoDisplayMode.random, 1/3⟩
    initialPolaroidsState rfl (by norm_num) rfl rfl (by norm_num) (by norm_num)

/-- C3 (counterexample): an identical PINCH prop snapshot occurring at
steps 1 and 3 of the same prop sequence focuses photo 0 the first time
and photo 1 the second time (sequential mode, 2 photos) — so the
subsystem does hold internal mode-dependent state (the selection index
and sequential counter) that influences which photo is shown. -/
theorem c3_counterexample :
    (runSelect [⟨TreeMode.PINCH, 2, PhotoDisplayMode.sequential, 0⟩]
      initialPolaroidsState).selectedPhotoIndex = some 0 ∧
    (runSelect
      [⟨TreeMode.PINCH, 2, PhotoDisplayMode.sequential, 0⟩,
       ⟨TreeMode.CHAOS, 2, PhotoDisplayMode.sequential, 0⟩,
       ⟨TreeMode.PINCH, 2, PhotoDisplayMode.sequential, 0⟩]
      initialPolaroidsState).selectedPhotoIndex = some 1 ∧
    (some 0 : Option ℕ) ≠ some 1 := by
  refine ⟨by decide, by decide, by decide⟩

/-- C3 (amended): outside PINCH mode the subsystem is prop-driven — the
per-frame movement target of a photo depends only on the mode prop and
the photo's chaos/tree positions, not on the internal selection state,
and any non-PINCH prop snapshot clears the selection (making it
independent of prior internal state); the PINCH focus, however, is
determined by the internal selection index / sequential counter state, as
the counterexample shows. -/
theorem c3_prop_driven_outside_pinch :
    (∀ (mode : TreeMode) (d₁ d₂ : PhotoData), mode ≠ TreeMode.PINCH →
      d₁.chaosPos = d₂.chaosPos → d₁.targetPos = d₂.targetPos →
      polaroidTargetPos mode d₁ = polaroidTargetPos mode d₂) ∧
    (∀ (inp : SelectEffectInput) (s₁ s₂ : PolaroidsState),
      inp.mode ≠ TreeMode.PINCH →
      (selectPhotoEffect inp s₁).selectedPhotoIndex = none ∧
      (selectPhotoEffect inp s₁).selectedPhotoIndex =
        (selectPhotoEffect inp s₂).selectedPhotoIndex) := by
  constructor
  · intro mode d₁ d₂ h hc ht
    by_cases hf : mode = TreeMode.FORMED
    · simp [polaroidTargetPos, h, hf, ht]
    · simp [polaroidTargetPos, h, hf, hc]
  · intro inp s₁ s₂ h
    have e₁ : (selectPhotoEffect inp s₁).selectedPhotoIndex = none := by
      unfold selectPhotoEffect
      rw [if_neg (fun hc => h hc.1)]
    have e₂ : (selectPhotoEffect inp s₂).selectedPhotoIndex = none := by
      unfold selectPhotoEffect
      rw [if_neg (fun hc => h hc.1)]
    exact ⟨e₁, e₁.trans e₂.symm⟩

/-- C3 (witness): in chaos mode the movement target of a photo does not
depend on its selection flag. -/
theorem c3_witness :
    polaroidTargetPos TreeMode.CHAOS
      ⟨0, "a", ⟨1, 2, 3⟩, ⟨4, 5, 6⟩, ⟨0, 8, 8⟩, 1, true, "L"⟩ =
    polaroidTargetPos TreeMode.CHAOS
      ⟨0, "a", ⟨1, 2, 3⟩, ⟨4, 5, 6⟩, ⟨0, 8, 8⟩, 1, false, "L"⟩ :=
  c3_prop_driven_outside_pinch.1 TreeMode.CHAOS
    ⟨0, "a", ⟨1, 2, 3⟩, ⟨4, 5, 6⟩, ⟨0, 8, 8⟩, 1, true, "L"⟩
    ⟨0, "a", ⟨1, 2, 3⟩, ⟨4, 5, 6⟩, ⟨0, 8, 8⟩, 1, false, "L"⟩
    (by decide) rfl rfl

/-- C10 (counterexample): with 2 photos the sequential counter reaches 1;
after the photos are replaced by a single photo, the next pinch entry
selects the stored counter 1, which is not in [0, 1) — so the counter /
chosen index does not always stay within [0, number of photos). -/
theorem c10_counterexample :
    (runSelect
      [⟨TreeMode.PINCH, 2, PhotoDisplayMode.sequential, 0⟩,
       ⟨TreeMode.CHAOS, 2, PhotoDisplayMode.sequential, 0⟩]
      initialPolaroidsState).sequentialIndex = 1 ∧
    (runSelect
      [⟨TreeMode.PINCH, 2, PhotoDisplayMode.sequential, 0⟩,
       ⟨TreeMode.CHAOS, 2, PhotoDisplayMode.sequential, 0⟩,
       ⟨TreeMode.PINCH, 1, PhotoDisplayMode.sequential, 0⟩]
      initialPolaroidsState).selectedPhotoIndex = some 1 ∧
    ¬ (1 < 1) := by
  refine ⟨by decide, by decide, by omega⟩

/-- C10 (amended): in random display mode the chosen index is in
[0, number of photos) for any Math.random draw in [0, 1); in sequential
display mode the chosen index equals the stored sequential counter, which
is advanced by 1 modulo the number of photos after each selection, so the
updated counter is in [0, number of photos) for the count used, and the
chosen index is in range provided the counter was (in particular whenever
the photo count has not shrunk below the counter since it was set). -/
theorem c10_selection_range :
    (∀ (inp : SelectEffectInput) (s : PolaroidsState),
      inp.mode = TreeMode.PINCH → 0 < inp.numPhotos →
      s.selectedPhotoIndex = none →
      inp.photoDisplayMode = PhotoDisplayMode.random →
      0 ≤ inp.randomDraw → inp.randomDraw < 1 →
      mathFloorNat (inp.randomDraw * inp.numPhotos) < inp.numPhotos ∧
      (selectPhotoEffect inp s).selectedPhotoIndex =
        some (mathFloorNat (inp.randomDraw * inp.numPhotos))) ∧
    (∀ (inp : SelectEffectInput) (s : PolaroidsState),
      inp.mode = TreeMode.PINCH → 0 < inp.numPhotos →
      s.selectedPhotoIndex = none →
      inp.photoDisplayMode = PhotoDisplayMode.sequential →
      (selectPhotoEffect inp s).selectedPhotoIndex = some s.sequentialIndex ∧
      (selectPhotoEffect inp s).sequentialIndex =
        (s.sequentialIndex + 1) % inp.numPhotos ∧
      (selectPhotoEffect inp s).sequentialIndex < inp.numPhotos ∧
      (s.sequentialIndex < inp.numPhotos →
        ∃ j, (selectPhotoEffect inp s).selectedPhotoIndex = some j ∧
          j < inp.numPhotos)) := by
  constructor
  · intro inp s hm hn hsel hdm h0 h1
    obtain ⟨mode, n, dm, q⟩ := inp
    obtain ⟨sel, seq⟩ := s
    simp only at hm hdm hsel h0 h1 hn
    subst hm hdm hsel
    exact ⟨mathFloorNat_lt q n h0 h1 hn, by simp [selectPhotoEffect, hn]⟩
  · intro inp s hm hn hsel hdm
    obtain ⟨mode, n, dm, q⟩ := inp
    obtain ⟨sel, seq⟩ := s
    simp only at hm hdm hsel hn
    subst hm hdm hsel
    refine ⟨by simp [selectPhotoEffect, hn], by simp [selectPhotoEffect, hn], ?_, ?_⟩
    · have : (selectPhotoEffect ⟨TreeMode.PINCH, n, PhotoDisplayMode.sequential, q⟩
          ⟨none, seq⟩).sequentialIndex = (seq + 1) % n := by
        simp [selectPhotoEffect, hn]
      rw [this]
      exact Nat.mod_lt _ hn
    · intro hseq
      exact ⟨seq, by simp [selectPhotoEffect, hn], hseq⟩

/-- C10 (witness): entering pinch sequentially with 3 photos from the
initial state selects index 0 and advances the counter to 1 % 3, still
below 3. -/
theorem c10_witness :
    (selectPhotoEffect ⟨TreeMode.PINCH, 3, PhotoDisplayMode.sequential, 0⟩
      initialPolaroidsState).selectedPhotoIndex = some 0 ∧
    (selectPhotoEffect ⟨TreeMode.PINCH, 3, PhotoDisplayMode.sequential, 0⟩
      initialPolaroidsState).sequentialIndex = (0 + 1) % 3 ∧
    (selectPhotoEffect ⟨TreeMode.PINCH, 3, PhotoDisplayMode.sequential, 0⟩
      initialPolaroidsState).sequentialIndex < 3 ∧
    (0 < 3 →
      ∃ j, (selectPhotoEffect ⟨TreeMode.PINCH, 3, PhotoDisplayMode.sequential, 0⟩
        initialPolaroidsState).selectedPhotoIndex = some j ∧ j < 3) :=
  c10_selection_range.2 ⟨TreeMode.PINCH, 3, PhotoDisplayMode.sequential, 0⟩
    initialPolaroidsState rfl (by norm_num) rfl rfl

/-- C6 (confirmed): for every trunk particle index below the count, with
draws coming from the library functions, the generated target position
lies inside the trunk cylinder (x² + z² ≤ 1 and y in [-2, 0]), the chaos
position lies inside the ball of radius 25 centred at (0, 5, 0), and the
random seed lies in [0, 1). -/
theorem c6_trunk_attributes :
    ∀ (count : ℕ) (draws : ℕ → TrunkDraw) (i : ℕ), i < count →
      (draws i).valid →
      ((trunkParticle (draws i)).target.x)^2 +
        ((trunkParticle (draws i)).target.z)^2 ≤ 1 ∧
      (-2 ≤ (trunkParticle (draws i)).target.y ∧
        (trunkParticle (draws i)).target.y ≤ 0) ∧
      ((trunkParticle (draws i)).chaos.x)^2 +
        ((trunkParticle (draws i)).chaos.y - 5)^2 +
        ((trunkParticle (draws i)).chaos.z)^2 ≤ 25^2 ∧
      (0 ≤ (trunkParticle (draws i)).rnd ∧ (trunkParticle (draws i)).rnd < 1) := by
  intro count draws i _ hv
  obtain ⟨hθ, hφ, hc0, hc1, hh0, hh1, hα, hr0, hr1, hs0, hs1⟩ := hv
  set d := draws i with hd
  have e1 : (trunkParticle d).target.x = d.cosAngle * (d.radiusDraw * 1) := rfl
  have e2 : (trunkParticle d).target.z = d.sinAngle * (d.radiusDraw * 1) := rfl
  have e3 : (trunkParticle d).target.y = -2 + d.heightDraw * 2 := rfl
  have e4 : (trunkParticle d).chaos.x =
      25 * d.cbrtU * d.sinPhi * d.cosTheta := rfl
  have e5 : (trunkParticle d).chaos.y =
      25 * d.cbrtU * d.sinPhi * d.sinTheta + 5 := rfl
  have e6 : (trunkParticle d).chaos.z = 25 * d.cbrtU * d.cosPhi := rfl
  have e7 : (trunkParticle d).rnd = d.seedDraw := rfl
  rw [e1, e2, e3, e4, e5, e6, e7]
  refine ⟨?_, ⟨by linarith, by linarith⟩, ?_, hs0, hs1⟩
  · have key : (d.cosAngle * (d.radiusDraw * 1))^2 +
        (d.sinAngle * (d.radiusDraw * 1))^2 = d.radiusDraw^2 := by
      linear_combination (d.radiusDraw^2) * hα
    rw [key]
    nlinarith
  · have key : (25 * d.cbrtU * d.sinPhi * d.cosTheta)^2 +
        (25 * d.cbrtU * d.sinPhi * d.sinTheta + 5 - 5)^2 +
        (25 * d.cbrtU * d.cosPhi)^2 = 625 * d.cbrtU^2 := by
      linear_combination (625 * d.cbrtU^2 * d.sinPhi^2) * hθ +
        (625 * d.cbrtU^2) * hφ
    rw [key]
    nlinarith

/-- C6 (witness): a concrete valid draw — cosine/sine pairs (3/5, 4/5),
(0, 1) and (1, 0), cube root 1/2 and raw draws 1/2 — satisfies all the
bounds. -/
theorem c6_witness :
    ((trunkParticle ⟨3/5, 4/5, 0, 1, 1/2, 1/2, 1, 0, 1/2, 1/2⟩).target.x)^2 +
      ((trunkParticle ⟨3/5, 4/5, 0, 1, 1/2, 1/2, 1, 0, 1/2, 1/2⟩).target.z)^2 ≤ 1 ∧
    (-2 ≤ (trunkParticle ⟨3/5, 4/5, 0, 1, 1/2, 1/2, 1, 0, 1/2, 1/2⟩).target.y ∧
      (trunkParticle ⟨3/5, 4/5, 0, 1, 1/2, 1/2, 1, 0, 1/2, 1/2⟩).target.y ≤ 0) ∧
    ((trunkParticle ⟨3/5, 4/5, 0, 1, 1/2, 1/2, 1, 0, 1/2, 1/2⟩).chaos.x)^2 +
      ((trunkParticle ⟨3/5, 4/5, 0, 1, 1/2, 1/2, 1, 0, 1/2, 1/2⟩).chaos.y - 5)^2 +
      ((trunkParticle ⟨3/5, 4/5, 0, 1, 1/2, 1/2, 1, 0, 1/2, 1/2⟩).chaos.z)^2 ≤ 25^2 ∧
    (0 ≤ (trunkParticle ⟨3/5, 4/5, 0, 1, 1/2, 1/2, 1, 0, 1/2, 1/2⟩).rnd ∧
      (trunkParticle ⟨3/5, 4/5, 0, 1, 1/2, 1/2, 1, 0, 1/2, 1/2⟩).rnd < 1) :=
  c6_trunk_attributes 1 (fun _ => ⟨3/5, 4/5, 0, 1, 1/2, 1/2, 1, 0, 1/2, 1/2⟩) 0
    (by norm_num) (by norm_num [TrunkDraw.valid])

/-- C7 (confirmed): the hand-tracking frame callback leaves the camera
position, the controls target and the stored previous hand position (the
whole tracked state) unchanged whenever no hand is detected or the
distance between the current and previous hand position is at most the
movement threshold 0.005. -/
theorem c7_hand_noop :
    ∀ (M : ExpMath) (hp : HandPosition) (delta : ℚ) (s : ExperienceState),
      (hp.detected = false ∨
        M.hypot (hp.x - s.prevHandPos.1) (hp.y - s.prevHandPos.2) ≤
          MOVEMENT_THRESHOLD) →
      experienceFrame M hp delta s = s := by
  intro M hp delta s h
  rcases h with h | h
  · simp [experienceFrame, h]
  · cases hd : hp.detected
    · simp [experienceFrame, hd]
    · have hmov : ¬ (MOVEMENT_THRESHOLD <
          M.hypot (hp.x - s.prevHandPos.1) (hp.y - s.prevHandPos.2)) :=
        not_lt.mpr h
      simp [experienceFrame, hd, hmov]

/-- C7 (witness): concrete no-op frames — one with no hand detected, one
with a detected hand that has not moved (distance 0 ≤ 0.005). -/
theorem c7_witness :
    (experienceFrame ⟨fun _ => 0, fun _ => 0, fun _ _ => 0, 0⟩ ⟨0, 0, false⟩ 1
        ⟨⟨0, 0, 0⟩, ⟨0, 0, 0⟩, 0, 0, 0, (0, 0)⟩ =
      ⟨⟨0, 0, 0⟩, ⟨0, 0, 0⟩, 0, 0, 0, (0, 0)⟩) ∧
    (experienceFrame ⟨fun _ => 0, fun _ => 0, fun _ _ => 0, 0⟩ ⟨1, 1, true⟩ 1
        ⟨⟨0, 0, 0⟩, ⟨0, 0, 0⟩, 0, 0, 0, (0, 0)⟩ =
      ⟨⟨0, 0, 0⟩, ⟨0, 0, 0⟩, 0, 0, 0, (0, 0)⟩) :=
  ⟨c7_hand_noop ⟨fun _ => 0, fun _ => 0, fun _ _ => 0, 0⟩ ⟨0, 0, false⟩ 1
      ⟨⟨0, 0, 0⟩, ⟨0, 0, 0⟩, 0, 0, 0, (0, 0)⟩ (Or.inl rfl),
   c7_hand_noop ⟨fun _ => 0, fun _ => 0, fun _ _ => 0, 0⟩ ⟨1, 1, true⟩ 1
      ⟨⟨0, 0, 0⟩, ⟨0, 0, 0⟩, 0, 0, 0, (0, 0)⟩
      (Or.inr (by norm_num [MOVEMENT_THRESHOLD]))⟩

/-- The generated photo list, indexed: position `i` holds the record built
by the loop body for `i`. -/
lemma photoData_getElem? (M : MathFns) (photos : List String)
    (labels : Option (List String)) (sel : Option Nat)
    (rnd : Nat → PhotoRandom) (i : ℕ) (h : i < photos.length) :
    (photoData M photos labels sel rnd)[i]? =
      some (photoDataItem M photos.length photos labels sel rnd i) := by
  unfold photoData
  rw [if_neg (by omega)]
  rw [List.getElem?_map, List.getElem?_range h]
  rfl

/-- C9 (counterexample): with one uploaded photo and the present label
list [""], the generated item's label is "Happy Memories", not the
present (empty) entry photoLabels[0] = "" — JS truthiness sends an empty
string to the default — refuting "label photoLabels[i] when present". -/
theorem c9_counterexample :
    (photoData ⟨fun _ => 0, fun _ => 0, 0⟩ ["u"] (some [""]) none
      (fun _ => ⟨0, 0, 0⟩)).map (fun d => d.label) = ["Happy Memories"] ∧
    ([""] : List String)[0]? = some "" ∧
    "Happy Memories" ≠ "" := by
  refine ⟨by decide, by decide, by decide⟩

/-- C9 (amended): the Polaroids component generates exactly one item per
uploaded photo — the list has length uploadedPhotos.length, item `i` uses
url uploadedPhotos[i] and label photoLabels[i] when that entry is present
and non-empty (else "Happy Memories"), an empty upload list yields zero
items — all regardless of the unused PHOTO_COUNT constant of 22. -/
theorem c9_photoData_items :
    (∀ (M : MathFns) (photos : List String) (labels : Option (List String))
        (sel : Option Nat) (rnd : Nat → PhotoRandom),
      (photoData M photos labels sel rnd).length = photos.length) ∧
    (∀ (M : MathFns) (photos : List String) (labels : Option (List String))
        (sel : Option Nat) (rnd : Nat → PhotoRandom) (i : ℕ),
      i < photos.length →
      ((photoData M photos labels sel rnd)[i]?).map (fun d => d.url) =
        photos[i]?) ∧
    (∀ (M : MathFns) (photos : List String) (ls : List String)
        (sel : Option Nat) (rnd : Nat → PhotoRandom) (i : ℕ) (l : String),
      i < photos.length → ls[i]? = some l → l ≠ "" →
      ((photoData M photos (some ls) sel rnd)[i]?).map (fun d => d.label) =
        some l) ∧
    (∀ (M : MathFns) (photos : List String) (ls : List String)
        (sel : Option Nat) (rnd : Nat → PhotoRandom) (i : ℕ),
      i < photos.length → (ls[i]? = some "" ∨ ls[i]? = none) →
      ((photoData M photos (some ls) sel rnd)[i]?).map (fun d => d.label) =
        some "Happy Memories") ∧
    (∀ (M : MathFns) (photos : List String) (sel : Option Nat)
        (rnd : Nat → PhotoRandom) (i : ℕ),
      i < photos.length →
      ((photoData M photos none sel rnd)[i]?).map (fun d => d.label) =
        some "Happy Memories") ∧
    (∀ (M : MathFns) (labels : Option (List String)) (sel : Option Nat)
        (rnd : Nat → PhotoRandom), photoData M [] labels sel rnd = []) ∧
    PHOTO_COUNT = 22 := by
  refine ⟨?_, ?_, ?_, ?_, ?_, fun M labels sel rnd => rfl, rfl⟩
  · intro M photos labels sel rnd
    unfold photoData
    by_cases h : photos.length = 0
    · rw [if_pos h, h]
      rfl
    · rw [if_neg h, List.length_map, List.length_range]
  · intro M photos labels sel rnd i h
    rw [photoData_getElem? M photos labels sel rnd i h]
    have hurl : (photoDataItem M photos.length photos labels sel rnd i).url =
        photos.getD i "" := rfl
    rw [Option.map_some', hurl]
    rw [List.getD_eq_getElem?_getD, List.getElem?_eq_getElem h]
    rfl
  · intro M photos ls sel rnd i l h hls hne
    rw [photoData_getElem? M photos (some ls) sel rnd i h]
    have hlab : (photoDataItem M photos.length photos (some ls) sel rnd i).label =
        photoLabelAt (some ls) i := rfl
    rw [Option.map_some', hlab]
    have hred : photoLabelAt (some ls) i =
        match ls[i]? with
        | some l => if l = "" then "Happy Memories" else l
        | none => "Happy Memories" := rfl
    rw [hred, hls]
    simp [hne]
  · intro M photos ls sel rnd i h hls
    rw [photoData_getElem? M photos (some ls) sel rnd i h]
    have hlab : (photoDataItem M photos.length photos (some ls) sel rnd i).label =
        photoLabelAt (some ls) i := rfl
    rw [Option.map_some', hlab]
    have hred : photoLabelAt (some ls) i =
        match ls[i]? with
        | some l => if l = "" then "Happy Memories" else l
        | none => "Happy Memories" := rfl
    rw [hred]
    rcases hls with hls | hls
    · rw [hls]
      simp
    · rw [hls]
  · intro M photos sel rnd i h
    rw [photoData_getElem? M photos none sel rnd i h]
    rfl

/-- C9 (witness): one photo with the present non-empty label "Label"
yields an item carrying that label, and the list has length one. -/
theorem c9_witness :
    ((photoData ⟨fun _ => 0, fun _ => 0, 0⟩ ["u"] (some ["Label"]) none
      (fun _ => ⟨0, 0, 0⟩))[0]?).map (fun d => d.label) = some "Label" ∧
    (photoData ⟨fun _ => 0, fun _ => 0, 0⟩ ["u"] (some ["Label"]) none
      (fun _ => ⟨0, 0, 0⟩)).length = 1 :=
  ⟨c9_photoData_items.2.2.1 ⟨fun _ => 0, fun _ => 0, 0⟩ ["u"] ["Label"] none
      (fun _ => ⟨0, 0, 0⟩) 0 "Label" (by norm_num) (by decide) (by decide),
   c9_photoData_items.1 ⟨fun _ => 0, fun _ => 0, 0⟩ ["u"] (some ["Label"]) none
      (fun _ => ⟨0, 0, 0⟩)⟩

end ChristmasTree
